import Mathlib

/-!
Shallow embedding of the Milkwala ledger core (DudhWalaRepo).

Source layout:
* `src/src/db/Database.js` — current revision of the storage gateway
  (namespace `Database` below).
* `src/unnamed/part_001` — an earlier revision of the same module plus two
  revisions of the daily-entry customers screen (namespaces `DatabaseV1` and
  `CustomersScreenV1`).
* `src/src/screens/*.js`, `src/unnamed/part_004`, `src/unnamed/part_005` —
  screens (namespaces `CustomerDetailScreen`, `ReportsScreen`,
  `DashboardScreen`, `ReportsScreenV1`, `ManageGlobalProductsScreen`).

Modelling conventions:
* Monetary amounts and quantities (SQLite `REAL`) are modelled as exact
  rationals, following the spec's data-model note that amounts are
  conceptually exact fixed-point decimals.
* `DATE` columns hold ISO `yyyy-MM-dd` strings in the source; SQLite compares
  them lexicographically, which coincides with chronological order.  They are
  modelled as naturals (e.g. `20231001`), an order-isomorphic encoding.
* SQL `SUM` over an empty result set yields `NULL`, modelled by `Option`;
  the JavaScript `x || 0` / SQL `IFNULL(x, 0)` coalescing is `Option.getD 0`
  (JavaScript `||` also sends `0` to `0`, which agrees with `getD`).
* `ORDER BY` clauses are dropped where only presentation order is affected;
  theorems about such queries are stated order-insensitively (membership,
  length, permutation).
* `AUTOINCREMENT` ids are modelled by explicit `nextSaleId` / `nextPaymentId`
  counters in the database state.
-/

namespace Milkwala

/-- A row of the `daily_sales` table (`Database.js`, `initDatabase`). -/
structure Sale where
  id : Nat
  customer_id : Nat
  product_id : Nat
  quantity : ℚ
  price_per_unit : ℚ
  total_amount : ℚ
  sale_date : Nat
deriving DecidableEq

/-- A row of the `payments` table. -/
structure Payment where
  id : Nat
  customer_id : Nat
  amount_paid : ℚ
  payment_date : Nat
  notes : String
deriving DecidableEq

/-- A row of the `customers` table (`isActive INTEGER DEFAULT 1` as `Bool`). -/
structure Customer where
  id : Nat
  name : String
  address : String
  phone : String
  isActive : Bool
deriving DecidableEq

/-- A row of the `products` table. -/
structure Product where
  id : Nat
  name : String
  unit : String
  default_price : ℚ
deriving DecidableEq

/-- A row of the `customer_products` assignment table. -/
structure CustomerProduct where
  customer_id : Nat
  product_id : Nat
  custom_price : ℚ
  default_quantity : ℚ
deriving DecidableEq

/-- The persistent state: the five ledger tables plus autoincrement counters. -/
structure DB where
  customers : List Customer
  products : List Product
  customer_products : List CustomerProduct
  daily_sales : List Sale
  payments : List Payment
  nextSaleId : Nat
  nextPaymentId : Nat
deriving DecidableEq

/-- The empty database (fresh schema). -/
def DB.empty : DB := ⟨[], [], [], [], [], 0, 0⟩

/-- SQL `SUM` over a list of values: `NULL` (`none`) on the empty set. -/
def sqlSum (l : List ℚ) : Option ℚ :=
  match l with
  | [] => none
  | _ => some l.sum

/-- JavaScript `x || 0` applied to a nullable SQL aggregate (also models
`IFNULL(x, 0)`). -/
def orZero (o : Option ℚ) : ℚ := o.getD 0

@[simp] theorem orZero_sqlSum (l : List ℚ) : orZero (sqlSum l) = l.sum := by
  cases l <;> simp [orZero, sqlSum]

namespace Database

/-- Embeds `Database.js` lines 272–284, `recordSale`: plain `INSERT INTO daily_sales`
with `total_amount = quantity * pricePerUnit`; returns `lastInsertRowId`. -/
def recordSale (db : DB) (customerId productId : Nat) (quantity pricePerUnit : ℚ)
    (date : Nat) : Nat × DB :=
  let totalAmount := quantity * pricePerUnit
  let row : Sale :=
    ⟨db.nextSaleId, customerId, productId, quantity, pricePerUnit, totalAmount, date⟩
  (db.nextSaleId, { db with daily_sales := db.daily_sales ++ [row],
                            nextSaleId := db.nextSaleId + 1 })

/-- Embeds `Database.js` lines 286–297, `updateSale`: `UPDATE daily_sales SET
quantity, price_per_unit, total_amount, sale_date WHERE id = ?`. -/
def updateSale (db : DB) (saleId : Nat) (quantity pricePerUnit : ℚ) (date : Nat) : DB :=
  let totalAmount := quantity * pricePerUnit
  { db with daily_sales := db.daily_sales.map fun s =>
      if s.id == saleId then
        { s with quantity := quantity, price_per_unit := pricePerUnit,
                 total_amount := totalAmount, sale_date := date }
      else s }

/-- Embeds `Database.js` lines 324–335, `getSaleForCustomerProductAndDate`:
`SELECT * FROM daily_sales WHERE customer_id = ? AND product_id = ? AND
sale_date = ?` via `getFirstAsync`. -/
def getSaleForCustomerProductAndDate (db : DB) (customerId productId date : Nat) :
    Option Sale :=
  db.daily_sales.find? fun s =>
    s.customer_id == customerId && s.product_id == productId && s.sale_date == date

/-- Embeds `Database.js` lines 350–364, `getSalesForCustomer`: sales of a customer with
`sale_date BETWEEN ? AND ?` (the `ORDER BY sale_date DESC` affects only
presentation and is dropped). -/
def getSalesForCustomer (db : DB) (customerId : Nat) (startDate endDate : Nat) :
    List Sale :=
  db.daily_sales.filter fun s =>
    s.customer_id == customerId &&
      decide (startDate ≤ s.sale_date) && decide (s.sale_date ≤ endDate)

/-- Embeds `Database.js` lines 383–393, `recordPayment`: plain `INSERT INTO payments`,
no validation. -/
def recordPayment (db : DB) (customerId : Nat) (amount : ℚ) (date : Nat)
    (notes : String) : DB :=
  { db with payments := db.payments ++ [⟨db.nextPaymentId, customerId, amount, date, notes⟩],
            nextPaymentId := db.nextPaymentId + 1 }

/-- Embeds `Database.js` lines 395–406, `getPaymentsForCustomer`:
`payment_date BETWEEN ? AND ?` (ordering dropped). -/
def getPaymentsForCustomer (db : DB) (customerId : Nat) (startDate endDate : Nat) :
    List Payment :=
  db.payments.filter fun p =>
    p.customer_id == customerId &&
      decide (startDate ≤ p.payment_date) && decide (p.payment_date ≤ endDate)

/-- Embeds `Database.js` lines 430–446, `getTotalDuesForCustomerUpToDate` (current
revision): `SUM(total_amount) ... sale_date <= ?` minus
`SUM(amount_paid) ... payment_date <= ?`, each coalesced with `|| 0`. -/
def getTotalDuesForCustomerUpToDate (db : DB) (customerId : Nat) (date : Nat) : ℚ :=
  let salesRes := sqlSum ((db.daily_sales.filter fun s =>
    s.customer_id == customerId && decide (s.sale_date ≤ date)).map Sale.total_amount)
  let payRes := sqlSum ((db.payments.filter fun p =>
    p.customer_id == customerId && decide (p.payment_date ≤ date)).map Payment.amount_paid)
  orZero salesRes - orZero payRes

/-- Embeds `Database.js` lines 217–227, `updateProduct`: `UPDATE products SET name,
unit, default_price WHERE id = ?`; touches no other table. -/
def updateProduct (db : DB) (id : Nat) (name unit : String) (defaultPrice : ℚ) : DB :=
  { db with products := db.products.map fun p =>
      if p.id == id then { p with name := name, unit := unit, default_price := defaultPrice }
      else p }

/-- Embeds `Database.js` lines 259–269, `updateAllCustomPricesForProduct`:
`UPDATE customer_products SET custom_price = ? WHERE product_id = ?`. -/
def updateAllCustomPricesForProduct (db : DB) (productId : Nat) (newPrice : ℚ) : DB :=
  { db with customer_products := db.customer_products.map fun cp =>
      if cp.product_id == productId then { cp with custom_price := newPrice } else cp }

/-- Shape of a `getCustomerDues` result entry. -/
structure DueEntry where
  id : Nat
  name : String
  total_due : ℚ
deriving DecidableEq

/-- Embeds `Database.js` lines 409–428, `getCustomerDues`: one row per customer with
`WHERE c.isActive = 1`, lifetime `SUM` subqueries, due coalesced with `|| 0`.
The query has no `ORDER BY`. -/
def getCustomerDues (db : DB) : List DueEntry :=
  (db.customers.filter fun c => c.isActive).map fun c =>
    { id := c.id, name := c.name,
      total_due :=
        orZero (sqlSum ((db.daily_sales.filter fun s => s.customer_id == c.id).map
          Sale.total_amount)) -
        orZero (sqlSum ((db.payments.filter fun p => p.customer_id == c.id).map
          Payment.amount_paid)) }

/-- Shape of a `getComprehensiveCustomerDues` result entry. -/
structure CompDueEntry where
  id : Nat
  name : String
  phone : String
  total_due : ℚ
  period_due : ℚ
  period_sales : ℚ
  period_payments : ℚ
deriving DecidableEq

/-- Embeds `Database.js` lines 448–475, `getComprehensiveCustomerDues`: per active
customer (`WHERE c.isActive = 1`), lifetime and period `IFNULL(SUM(..), 0)`
aggregates; `ORDER BY c.name ASC` is presentation order and is dropped here,
so theorems about this query are stated order-insensitively. -/
def getComprehensiveCustomerDues (db : DB) (startDate endDate : Nat) :
    List CompDueEntry :=
  (db.customers.filter fun c => c.isActive).map fun c =>
    let lifetime_sales := orZero (sqlSum ((db.daily_sales.filter fun s =>
      s.customer_id == c.id).map Sale.total_amount))
    let lifetime_payments := orZero (sqlSum ((db.payments.filter fun p =>
      p.customer_id == c.id).map Payment.amount_paid))
    let period_sales := orZero (sqlSum ((db.daily_sales.filter fun s =>
      s.customer_id == c.id && decide (startDate ≤ s.sale_date) &&
        decide (s.sale_date ≤ endDate)).map Sale.total_amount))
    let period_payments := orZero (sqlSum ((db.payments.filter fun p =>
      p.customer_id == c.id && decide (startDate ≤ p.payment_date) &&
        decide (p.payment_date ≤ endDate)).map Payment.amount_paid))
    { id := c.id, name := c.name, phone := c.phone,
      total_due := lifetime_sales - lifetime_payments,
      period_due := period_sales - period_payments,
      period_sales := period_sales, period_payments := period_payments }

end Database

/-- Spec-side formula for the core derived value (spec §3 / §4.3):
`Total Due(customer, asOfDate)` = Σ sale.total_amount (sale_date ≤ asOf)
− Σ payment.amount_paid (payment_date ≤ asOf), with empty sums equal to 0. -/
def specTotalDueAsOf (db : DB) (customerId : Nat) (date : Nat) : ℚ :=
  ((db.daily_sales.filter fun s =>
      s.customer_id == customerId && decide (s.sale_date ≤ date)).map
    Sale.total_amount).sum -
  ((db.payments.filter fun p =>
      p.customer_id == customerId && decide (p.payment_date ≤ date)).map
    Payment.amount_paid).sum

/-- Scenario-B database: customer 1 with a sale of 120 on 2023-10-01 and a
payment of 50 on 2023-10-05. -/
def scenarioB : DB :=
  { customers := [⟨1, "Alice", "", "", true⟩]
    products := [⟨1, "Milk", "Liter", 60⟩]
    customer_products := []
    daily_sales := [⟨0, 1, 1, 2, 60, 120, 20231001⟩]
    payments := [⟨0, 1, 50, 20231005, ""⟩]
    nextSaleId := 1
    nextPaymentId := 1 }

/-- C2: `getTotalDuesForCustomerUpToDate` (current revision) equals the sum of
`total_amount` over the customer's sales dated `≤ d` minus the sum of
`amount_paid` over their payments dated `≤ d`; it is `0` (a number, not
null/error) for a customer with no sales and no payments; and on Scenario B
(sale 120 on 2023-10-01, payment 50 on 2023-10-05) the due as of 2023-10-31
is 70. -/
theorem C2_totalDueAsOf_correct :
    (∀ (db : DB) (c d : Nat),
      Database.getTotalDuesForCustomerUpToDate db c d = specTotalDueAsOf db c d) ∧
    (∀ (db : DB) (c d : Nat),
      (db.daily_sales.filter fun s => s.customer_id == c) = [] →
      (db.payments.filter fun p => p.customer_id == c) = [] →
      Database.getTotalDuesForCustomerUpToDate db c d = 0) ∧
    Database.getTotalDuesForCustomerUpToDate scenarioB 1 20231031 = 70 := by
  refine ⟨?_, ?_, ?_⟩
  · intro db c d
    simp [Database.getTotalDuesForCustomerUpToDate, specTotalDueAsOf]
  · intro db c d hs hp
    have hs' : (db.daily_sales.filter fun s =>
        s.customer_id == c && decide (s.sale_date ≤ d)) = [] := by
      refine List.filter_eq_nil_iff.mpr fun x hx => ?_
      have := List.filter_eq_nil_iff.mp hs x hx
      simp_all
    have hp' : (db.payments.filter fun p =>
        p.customer_id == c && decide (p.payment_date ≤ d)) = [] := by
      refine List.filter_eq_nil_iff.mpr fun x hx => ?_
      have := List.filter_eq_nil_iff.mp hp x hx
      simp_all
    simp [Database.getTotalDuesForCustomerUpToDate, hs', hp', sqlSum, orZero]
  · norm_num [scenarioB, Database.getTotalDuesForCustomerUpToDate, sqlSum, orZero,
      List.filter]

/-- Witness for `C2_totalDueAsOf_correct`: the zero-baseline conjunct applied
to the empty database. -/
theorem C2_totalDueAsOf_correct_witness :
    Database.getTotalDuesForCustomerUpToDate DB.empty 1 20231031 = 0 :=
  C2_totalDueAsOf_correct.2.1 DB.empty 1 20231031 (by decide) (by decide)

namespace DatabaseV1

/-- Embeds `src/unnamed/part_001` lines 270–278, `getTotalDuesForCustomerUpToDate`
(earlier revision): both sums bound the date with strict `<`
(`sale_date < ?`, `payment_date < ?`), then `|| 0` coalescing. -/
def getTotalDuesForCustomerUpToDate (db : DB) (customerId : Nat) (date : Nat) : ℚ :=
  let salesResult := sqlSum ((db.daily_sales.filter fun s =>
    s.customer_id == customerId && decide (s.sale_date < date)).map Sale.total_amount)
  let paymentsResult := sqlSum ((db.payments.filter fun p =>
    p.customer_id == customerId && decide (p.payment_date < date)).map Payment.amount_paid)
  orZero salesResult - orZero paymentsResult

/-- Embeds `src/unnamed/part_001` lines 287–306, `getCustomerDues` (earlier revision):
one row per customer from the bare `customers` table — there is **no**
`isActive` filter in this revision (`ORDER BY c.name ASC` dropped as
presentation order). -/
def getCustomerDues (db : DB) : List Database.DueEntry :=
  db.customers.map fun c =>
    { id := c.id, name := c.name,
      total_due :=
        orZero (sqlSum ((db.daily_sales.filter fun s => s.customer_id == c.id).map
          Sale.total_amount)) -
        orZero (sqlSum ((db.payments.filter fun p => p.customer_id == c.id).map
          Payment.amount_paid)) }

/-- Shape of a `getCustomerDuesForPeriod` result entry. -/
structure PeriodDueEntry where
  id : Nat
  name : String
  period_due : ℚ
deriving DecidableEq

/-- SQL comparison `x > 0` on a nullable aggregate: `NULL > 0` is not true. -/
def sqlGtZero (o : Option ℚ) : Bool :=
  match o with
  | some x => decide (0 < x)
  | none => false

/-- Embeds `src/unnamed/part_001` lines 308–328, `getCustomerDuesForPeriod`: period
`SUM`s per customer, `HAVING period_sales > 0 OR period_payments > 0`, then
the JavaScript post-filter `period_due !== 0`. -/
def getCustomerDuesForPeriod (db : DB) (startDate endDate : Nat) :
    List PeriodDueEntry :=
  ((db.customers.map fun c =>
      (c,
       sqlSum ((db.daily_sales.filter fun s =>
         s.customer_id == c.id && decide (startDate ≤ s.sale_date) &&
           decide (s.sale_date ≤ endDate)).map Sale.total_amount),
       sqlSum ((db.payments.filter fun p =>
         p.customer_id == c.id && decide (startDate ≤ p.payment_date) &&
           decide (p.payment_date ≤ endDate)).map Payment.amount_paid))).filter
    fun x => sqlGtZero x.2.1 || sqlGtZero x.2.2).map
      (fun x => { id := x.1.id, name := x.1.name,
                  period_due := orZero x.2.1 - orZero x.2.2 })
    |>.filter fun e => decide (e.period_due ≠ 0)

end DatabaseV1

/-- Splitting a date-bounded sum: the `≤ d` sum is the `< d` sum plus the
`= d` sum. -/
theorem sum_filter_le_split {α : Type} (l : List α) (f : α → ℚ) (p : α → Bool)
    (dt : α → Nat) (d : Nat) :
    ((l.filter fun x => p x && decide (dt x ≤ d)).map f).sum =
    ((l.filter fun x => p x && decide (dt x < d)).map f).sum +
    ((l.filter fun x => p x && (dt x == d)).map f).sum := by
  induction l with
  | nil => simp
  | cons a t ih =>
    rcases lt_trichotomy (dt a) d with h | h | h
    · by_cases hp : p a = true <;>
        simp [List.filter_cons, hp, h, h.le, h.ne, ih] <;> ring
    · by_cases hp : p a = true <;>
        simp [List.filter_cons, hp, h, ih] <;> ring
    · by_cases hp : p a = true <;>
        simp [List.filter_cons, hp, Nat.not_le.mpr h, Nat.lt_asymm h, h.ne', ih]

/-- C3 (amended): within each revision the boundary operator agrees between the
sales and the payments sum, but the two revisions do **not** agree with each
other: the current revision (`Database.js`, `≤`) counts events dated exactly
the as-of date while the `part_001` revision (`<`) excludes them, and their
difference is exactly the net of the events dated the as-of date. -/
theorem C3_boundary_difference (db : DB) (c d : Nat) :
    Database.getTotalDuesForCustomerUpToDate db c d -
      DatabaseV1.getTotalDuesForCustomerUpToDate db c d =
    ((db.daily_sales.filter fun s => s.customer_id == c && s.sale_date == d).map
      Sale.total_amount).sum -
    ((db.payments.filter fun p => p.customer_id == c && p.payment_date == d).map
      Payment.amount_paid).sum := by
  simp only [Database.getTotalDuesForCustomerUpToDate,
    DatabaseV1.getTotalDuesForCustomerUpToDate, orZero_sqlSum]
  rw [sum_filter_le_split db.daily_sales Sale.total_amount
        (fun s => s.customer_id == c) Sale.sale_date d,
      sum_filter_le_split db.payments Payment.amount_paid
        (fun p => p.customer_id == c) Payment.payment_date d]
  ring

/-- C3 counterexample: on Scenario B's database, as of the sale date
2023-10-01 itself, the current revision returns 120 while the `part_001`
revision returns 0 — the two revisions of `getTotalDuesForCustomerUpToDate`
are not equal, and the earlier one does not count a sale dated exactly the
as-of date. -/
theorem C3_boundary_difference_cex :
    Database.getTotalDuesForCustomerUpToDate scenarioB 1 20231001 = 120 ∧
    DatabaseV1.getTotalDuesForCustomerUpToDate scenarioB 1 20231001 = 0 ∧
    Database.getTotalDuesForCustomerUpToDate scenarioB 1 20231001 ≠
      DatabaseV1.getTotalDuesForCustomerUpToDate scenarioB 1 20231001 := by
  norm_num [scenarioB, Database.getTotalDuesForCustomerUpToDate,
    DatabaseV1.getTotalDuesForCustomerUpToDate, sqlSum, orZero, List.filter]

/-- The key predicate of the sale upsert protocol: rows of `daily_sales`
matching a given (customer, product, date) triple. -/
def saleKeyEq (customerId productId date : Nat) (s : Sale) : Bool :=
  s.customer_id == customerId && s.product_id == productId && s.sale_date == date

@[simp] theorem saleKeyEq_iff (c p d : Nat) (s : Sale) :
    saleKeyEq c p d s = true ↔
      s.customer_id = c ∧ s.product_id = p ∧ s.sale_date = d := by
  simp [saleKeyEq, and_assoc]

/-- Well-formedness of the autoincrement id column: ids are distinct and below
the next id to be handed out. -/
def SaleIdsOK (db : DB) : Prop :=
  (db.daily_sales.map Sale.id).Nodup ∧ ∀ s ∈ db.daily_sales, s.id < db.nextSaleId

/-- The at-most-one-sale-per-(customer, product, date) invariant. -/
def AtMostOneSalePerKey (db : DB) : Prop :=
  ∀ c p d, (db.daily_sales.filter (saleKeyEq c p d)).length ≤ 1

/-- Invariant carried by the sale upsert protocol. -/
def SalesInv (db : DB) : Prop := SaleIdsOK db ∧ AtMostOneSalePerKey db

/-- The find-then-branch upsert step of the daily-entry save flows, on the
paths where the pending sale was fetched by
`getSaleForCustomerProductAndDate` and therefore carries the row `id`: after
a date change `onSaleDateChange` (`part_001` line 553) stores that full row
and `handleSaveSale` (lines 496–498) branches on its `id`; the second screen
revision fetches the row the same way (lines 932 and 1003) before
`handleSave` (lines 986–988). Caution: rev-1's save directly after
`openModal` does **not** follow this model, because `openModal` stores the
day's join row, which has `sale_id` but no `id` — that path is embedded
separately as `CustomersScreenV1.handleSaveSaleFromOpenModal`. -/
def recordOrUpdateSale (db : DB) (customerId productId : Nat)
    (quantity pricePerUnit : ℚ) (date : Nat) : DB :=
  match Database.getSaleForCustomerProductAndDate db customerId productId date with
  | some currentSale => Database.updateSale db currentSale.id quantity pricePerUnit date
  | none => (Database.recordSale db customerId productId quantity pricePerUnit date).2

theorem getSale_eq_find (db : DB) (c p d : Nat) :
    Database.getSaleForCustomerProductAndDate db c p d =
      db.daily_sales.find? (saleKeyEq c p d) := rfl

/-- Mapping an update-row-with-this-id function over a list with distinct ids
rewrites exactly the distinguished occurrence. -/
theorem map_update_split (l₁ l₂ : List Sale) (s : Sale) (g : Sale → Sale)
    (hnd : ((l₁ ++ s :: l₂).map Sale.id).Nodup) :
    ((l₁ ++ s :: l₂).map fun x => if x.id == s.id then g x else x) =
      l₁ ++ g s :: l₂ := by
  rw [List.map_append, List.map_cons] at hnd
  have hmid := List.nodup_middle.mp hnd
  rw [List.nodup_cons] at hmid
  have hnotmem : s.id ∉ l₁.map Sale.id ∧ s.id ∉ l₂.map Sale.id := by
    constructor <;> intro hc <;> exact hmid.1 (by simp [hc])
  rw [List.map_append, List.map_cons]
  have h₁ : (l₁.map fun x => if x.id == s.id then g x else x) = l₁ := by
    rw [List.map_congr_left (g := id), List.map_id]
    intro x hx
    have : x.id ≠ s.id := fun he => hnotmem.1 (he ▸ List.mem_map_of_mem Sale.id hx)
    simp [this]
  have h₂ : (l₂.map fun x => if x.id == s.id then g x else x) = l₂ := by
    rw [List.map_congr_left (g := id), List.map_id]
    intro x hx
    have : x.id ≠ s.id := fun he => hnotmem.2 (he ▸ List.mem_map_of_mem Sale.id hx)
    simp [this]
  rw [h₁, h₂]
  simp

/-- If an at-most-one filter bound holds for a list with a distinguished
matching middle element, nothing else in the list matches. -/
theorem filter_nil_of_middle (P : Sale → Bool) (l₁ l₂ : List Sale) (s : Sale)
    (hs : P s = true) (hlen : ((l₁ ++ s :: l₂).filter P).length ≤ 1) :
    l₁.filter P = [] ∧ l₂.filter P = [] := by
  rw [List.filter_append, List.filter_cons, if_pos hs] at hlen
  rw [List.length_append, List.length_cons] at hlen
  exact ⟨List.length_eq_zero.mp (by omega), List.length_eq_zero.mp (by omega)⟩

/-- Core correctness of the sale upsert protocol: on an invariant-satisfying
state, one `recordOrUpdateSale` call leaves exactly one `daily_sales` row for
its (customer, product, date) key — carrying the call's quantity and price and
`total_amount = quantity * pricePerUnit` — and re-establishes the invariant. -/
theorem recordOrUpdateSale_spec (db : DB) (c p : Nat) (q r : ℚ) (d : Nat)
    (hinv : SalesInv db) :
    (∃ s : Sale,
      (recordOrUpdateSale db c p q r d).daily_sales.filter (saleKeyEq c p d) = [s] ∧
      s.quantity = q ∧ s.price_per_unit = r ∧ s.total_amount = q * r) ∧
    SalesInv (recordOrUpdateSale db c p q r d) := by
  obtain ⟨⟨hnd, hbound⟩, hkey⟩ := hinv
  cases hfind : Database.getSaleForCustomerProductAndDate db c p d with
  | none =>
    have hall : ∀ x ∈ db.daily_sales, ¬ saleKeyEq c p d x = true := by
      intro x hx
      exact List.find?_eq_none.mp (getSale_eq_find db c p d ▸ hfind) x hx
    have hds : (recordOrUpdateSale db c p q r d).daily_sales =
        db.daily_sales ++ [⟨db.nextSaleId, c, p, q, r, q * r, d⟩] := by
      simp [recordOrUpdateSale, hfind, Database.recordSale]
    have hnext : (recordOrUpdateSale db c p q r d).nextSaleId = db.nextSaleId + 1 := by
      simp [recordOrUpdateSale, hfind, Database.recordSale]
    have hfl : db.daily_sales.filter (saleKeyEq c p d) = [] :=
      List.filter_eq_nil_iff.mpr hall
    have hfilter : (recordOrUpdateSale db c p q r d).daily_sales.filter (saleKeyEq c p d) =
        [⟨db.nextSaleId, c, p, q, r, q * r, d⟩] := by
      rw [hds, List.filter_append, hfl]
      simp [saleKeyEq]
    have hnodup : ((recordOrUpdateSale db c p q r d).daily_sales.map Sale.id).Nodup := by
      rw [hds, List.map_append, List.nodup_append]
      refine ⟨hnd, by simp, ?_⟩
      intro a ha hb
      simp only [List.map_cons, List.map_nil, List.mem_singleton] at hb
      obtain ⟨x, hx, rfl⟩ := List.mem_map.mp ha
      exact absurd hb (Nat.ne_of_lt (hbound x hx))
    have hbound' : ∀ x ∈ (recordOrUpdateSale db c p q r d).daily_sales,
        x.id < (recordOrUpdateSale db c p q r d).nextSaleId := by
      rw [hds, hnext]
      intro x hx
      rcases List.mem_append.mp hx with h | h
      · exact Nat.lt_succ_of_lt (hbound x h)
      · simp only [List.mem_singleton] at h
        subst h
        exact Nat.lt_succ_self _
    have hatmost : ∀ c' p' d',
        ((recordOrUpdateSale db c p q r d).daily_sales.filter (saleKeyEq c' p' d')).length ≤ 1 := by
      intro c' p' d'
      rw [hds, List.filter_append]
      by_cases hk : saleKeyEq c' p' d' ⟨db.nextSaleId, c, p, q, r, q * r, d⟩ = true
      · obtain ⟨hc, hp, hdd⟩ := (saleKeyEq_iff _ _ _ _).mp hk
        simp only at hc hp hdd
        subst hc; subst hp; subst hdd
        rw [hfl]
        simp [saleKeyEq]
      · rw [List.filter_cons, if_neg hk]
        simp only [List.filter_nil, List.append_nil]
        exact hkey c' p' d'
    exact ⟨⟨_, hfilter, rfl, rfl, rfl⟩, ⟨hnodup, hbound'⟩, hatmost⟩
  | some s =>
    have hfind' : db.daily_sales.find? (saleKeyEq c p d) = some s :=
      getSale_eq_find db c p d ▸ hfind
    have hkeyS : saleKeyEq c p d s = true := List.find?_some hfind'
    have hmem : s ∈ db.daily_sales := List.mem_of_find?_eq_some hfind'
    obtain ⟨hc, hp2, hd2⟩ := (saleKeyEq_iff c p d s).mp hkeyS
    obtain ⟨l₁, l₂, hsplit⟩ := List.append_of_mem hmem
    have hnd' : ((l₁ ++ s :: l₂).map Sale.id).Nodup := hsplit ▸ hnd
    set s' : Sale := { s with quantity := q, price_per_unit := r, total_amount := q * r, sale_date := d } with hs'
    have hds : (recordOrUpdateSale db c p q r d).daily_sales = l₁ ++ s' :: l₂ := by
      have h1 : (recordOrUpdateSale db c p q r d).daily_sales =
          db.daily_sales.map fun x =>
            if x.id == s.id then
              { x with quantity := q, price_per_unit := r, total_amount := q * r, sale_date := d }
            else x := by
        simp [recordOrUpdateSale, hfind, Database.updateSale]
      rw [h1, hsplit]
      exact map_update_split l₁ l₂ s _ hnd'
    have hnext : (recordOrUpdateSale db c p q r d).nextSaleId = db.nextSaleId := by
      simp [recordOrUpdateSale, hfind, Database.updateSale]
    have hlen1 : ((l₁ ++ s :: l₂).filter (saleKeyEq c p d)).length ≤ 1 :=
      hsplit ▸ hkey c p d
    obtain ⟨hfl₁, hfl₂⟩ := filter_nil_of_middle _ l₁ l₂ s hkeyS hlen1
    have hid' : s'.id = s.id := by rw [hs']
    have hkeyS' : saleKeyEq c p d s' = true := by
      rw [hs']
      simp [saleKeyEq, hc, hp2]
    have hfilter : (recordOrUpdateSale db c p q r d).daily_sales.filter (saleKeyEq c p d) =
        [s'] := by
      rw [hds, List.filter_append, hfl₁, List.filter_cons, if_pos hkeyS', hfl₂]
      simp
    have hprops : s'.quantity = q ∧ s'.price_per_unit = r ∧ s'.total_amount = q * r := by
      rw [hs']
      exact ⟨rfl, rfl, rfl⟩
    have hnodup : ((recordOrUpdateSale db c p q r d).daily_sales.map Sale.id).Nodup := by
      rw [hds]
      have hsame : (l₁ ++ s' :: l₂).map Sale.id = (l₁ ++ s :: l₂).map Sale.id := by
        simp [hid']
      rw [hsame]
      exact hnd'
    have hbound' : ∀ x ∈ (recordOrUpdateSale db c p q r d).daily_sales,
        x.id < (recordOrUpdateSale db c p q r d).nextSaleId := by
      rw [hds, hnext]
      intro x hx
      rcases List.mem_append.mp hx with h | h
      · exact hbound x (hsplit ▸ List.mem_append_left _ h)
      · rcases List.mem_cons.mp h with h | h
        · rw [h, hid']
          exact hbound s hmem
        · exact hbound x (hsplit ▸ List.mem_append_right _ (List.mem_cons_of_mem _ h))
    have hatmost : ∀ c' p' d',
        ((recordOrUpdateSale db c p q r d).daily_sales.filter (saleKeyEq c' p' d')).length ≤ 1 := by
      intro c' p' d'
      rw [hds]
      by_cases hk : saleKeyEq c' p' d' s' = true
      · obtain ⟨hc', hp', hd'⟩ := (saleKeyEq_iff _ _ _ _).mp hk
        have hcc : c' = c := by rw [← hc', hs']; exact hc
        have hpp : p' = p := by rw [← hp', hs']; exact hp2
        have hdd : d' = d := by rw [← hd', hs']
        subst hcc; subst hpp; subst hdd
        rw [List.filter_append, hfl₁, List.filter_cons, if_pos hkeyS', hfl₂]
        simp
      · rw [List.filter_append, List.filter_cons, if_neg hk]
        have hold : ((l₁ ++ s :: l₂).filter (saleKeyEq c' p' d')).length ≤ 1 :=
          hsplit ▸ hkey c' p' d'
        rw [List.filter_append, List.filter_cons] at hold
        by_cases hks : saleKeyEq c' p' d' s = true
        · rw [if_pos hks] at hold
          simp only [List.length_append, List.length_cons] at hold ⊢
          omega
        · rw [if_neg hks] at hold
          exact hold
    exact ⟨⟨s', hfilter, hprops.1, hprops.2.1, hprops.2.2⟩, ⟨hnodup, hbound'⟩, hatmost⟩

namespace CustomersScreenV1

/-- Embeds `src/unnamed/part_001` lines 483–508, `handleSaveSale` (daily-entry
modal). Text fields are modelled as `Option ℚ`: `none` is an empty field,
rejected by the `!quantity || !rate` guard (a non-numeric entry is likewise
rejected, by the `isNaN` guard, and is not modelled separately). A parsed
negative quantity or rate is rejected before any database call; otherwise the
flow branches on the pending sale and runs `updateSale` or `recordSale`. This
definition covers the paths on which `currentSale` was fetched with its row
`id` by `onSaleDateChange` (line 553); the save straight after `openModal` is
`handleSaveSaleFromOpenModal` below. -/
def handleSaveSale (db : DB) (customerId productId : Nat) (quantity rate : Option ℚ)
    (saleDate : Nat) : Except String DB :=
  match quantity, rate with
  | some qty, some saleRate =>
    if qty < 0 ∨ saleRate < 0 then
      Except.error "Please enter a valid quantity and rate."
    else
      Except.ok (recordOrUpdateSale db customerId productId qty saleRate saleDate)
  | _, _ => Except.error "Please fill all fields."

/-- Embeds `src/unnamed/part_001` lines 462–508: rev-1's save path straight
after `openModal`, without a date change. `openModal` (line 469) stores the
`getSalesDataForDate` join row as `currentSale`; that query (lines 227–245)
aliases `ds.id` as `sale_id` and selects no bare `id` column, so the branch
condition `currentSale?.id` at line 496 is undefined and the `updateSale`
branch is unreachable on this path: after the validation guards the flow
always calls `recordSale`, even when a `daily_sales` row for the
(customer, product, date) key already exists. -/
def handleSaveSaleFromOpenModal (db : DB) (customerId productId : Nat)
    (quantity rate : Option ℚ) (saleDate : Nat) : Except String DB :=
  match quantity, rate with
  | some qty, some saleRate =>
    if qty < 0 ∨ saleRate < 0 then
      Except.error "Please enter a valid quantity and rate."
    else
      Except.ok (Database.recordSale db customerId productId qty saleRate saleDate).2
  | _, _ => Except.error "Please fill all fields."

/-- Embeds `src/unnamed/part_001` lines 979–994, `handleSave` (the other daily-entry
screen revision): only field emptiness is checked (`!qty || !saleRate`); the
values are passed to `updateSale`/`recordSale` with no sign validation. -/
def handleSave (db : DB) (customerId productId : Nat) (qty saleRate : Option ℚ)
    (selectedDate : Nat) : Except String DB :=
  match qty, saleRate with
  | some q, some r =>
    Except.ok (recordOrUpdateSale db customerId productId q r selectedDate)
  | _, _ => Except.error "Please fill all fields"

end CustomersScreenV1

/-- C5 (amended): in the daily-entry modal flow `handleSaveSale` a negative
quantity or rate is rejected as a validation error before any storage
mutation, and non-negative values — including exactly 0 — are accepted and
stored through the upsert; the revision's `handleSave` flow, however, checks
only that the fields are non-empty and performs the storage mutation even for
negative values. -/
theorem C5_sale_validation (db : DB) (c p : Nat) (q r : ℚ) (d : Nat) :
    ((q < 0 ∨ r < 0) →
      CustomersScreenV1.handleSaveSale db c p (some q) (some r) d =
        Except.error "Please enter a valid quantity and rate.") ∧
    (0 ≤ q → 0 ≤ r →
      CustomersScreenV1.handleSaveSale db c p (some q) (some r) d =
        Except.ok (recordOrUpdateSale db c p q r d)) ∧
    CustomersScreenV1.handleSave db c p (some q) (some r) d =
      Except.ok (recordOrUpdateSale db c p q r d) := by
  refine ⟨?_, ?_, rfl⟩
  · intro h
    simp [CustomersScreenV1.handleSaveSale, h]
  · intro hq hr
    have hno : ¬ (q < 0 ∨ r < 0) := by
      push_neg
      exact ⟨hq, hr⟩
    simp [CustomersScreenV1.handleSaveSale, hno]

/-- Witness for `C5_sale_validation`: a negative rate is rejected, and a zero
quantity is accepted, at concrete inputs. -/
theorem C5_sale_validation_witness :
    CustomersScreenV1.handleSaveSale DB.empty 1 1 (some 2) (some (-60)) 20231027 =
      Except.error "Please enter a valid quantity and rate." ∧
    CustomersScreenV1.handleSaveSale DB.empty 1 1 (some 0) (some 60) 20231027 =
      Except.ok (recordOrUpdateSale DB.empty 1 1 0 60 20231027) :=
  ⟨(C5_sale_validation DB.empty 1 1 2 (-60) 20231027).1 (Or.inr (by norm_num)),
   (C5_sale_validation DB.empty 1 1 0 60 20231027).2.1 (by norm_num) (by norm_num)⟩

/-- C5 counterexample: the `handleSave` flow does **not** reject a negative
quantity — on an empty database it inserts a `daily_sales` row with quantity
−1 (a storage mutation happens), contradicting the claim that every
sale-recording request rejects negatives before any storage mutation. -/
theorem C5_sale_validation_cex :
    CustomersScreenV1.handleSave DB.empty 1 1 (some (-1)) (some 10) 20231027 =
      Except.ok (recordOrUpdateSale DB.empty 1 1 (-1) 10 20231027) ∧
    (recordOrUpdateSale DB.empty 1 1 (-1) 10 20231027).daily_sales.map Sale.quantity =
      [-1] := by
  constructor
  · rfl
  · simp [recordOrUpdateSale, Database.getSaleForCustomerProductAndDate, DB.empty,
      Database.recordSale]

/-- Database on which customer 1 / product 2 already has a sale (qty 2 at 60)
recorded for 2023-10-27, so the daily list's join row carries a `sale_id` and
the screen offers Edit. -/
def dbC4 : DB :=
  { customers := [⟨1, "Asha", "", "", true⟩]
    products := [⟨2, "Milk", "Liter", 60⟩]
    customer_products := [⟨1, 2, 60, 2⟩]
    daily_sales := [⟨0, 1, 2, 2, 60, 120, 20231027⟩]
    payments := []
    nextSaleId := 1
    nextPaymentId := 0 }

/-- C4 fails on the code: on `dbC4` a `daily_sales` row for the key
(customer 1, product 2, 2023-10-27) already exists — third conjunct — yet
saving qty 3 through rev-1's save-after-`openModal` path calls `recordSale`
(the `updateSale` branch at `part_001` line 496 reads `currentSale?.id`, a
field the join row stored by `openModal` does not have) and the database ends
with **two** rows for that key: the filter for the key has length 2. The
spec's at-most-one-per-key upsert (`recordOrUpdateSale`, proved
invariant-preserving in `recordOrUpdateSale_spec`) would have updated the row
in place, and no `daily_sales` uniqueness constraint (`Database.js`
lines 55–67) stops the duplicate. -/
theorem C4_duplicate_sale_bug :
    CustomersScreenV1.handleSaveSaleFromOpenModal dbC4 1 2 (some 3) (some 60) 20231027 =
      Except.ok (Database.recordSale dbC4 1 2 3 60 20231027).2 ∧
    ((Database.recordSale dbC4 1 2 3 60 20231027).2.daily_sales.filter
        (saleKeyEq 1 2 20231027)).length = 2 ∧
    Database.getSaleForCustomerProductAndDate dbC4 1 2 20231027 =
      some ⟨0, 1, 2, 2, 60, 120, 20231027⟩ := by
  refine ⟨?_, ?_, ?_⟩
  · norm_num [CustomersScreenV1.handleSaveSaleFromOpenModal]
  · simp [Database.recordSale, dbC4, saleKeyEq, List.filter]
  · rfl

namespace ManageGlobalProductsScreen

/-- Embeds `src/unnamed/part_005` lines 34–83, `handleUpdate`, taking the
"Yes, Update All" branch (the spec's `propagateDefaultPriceChange` with
`applyToCustomers = true`): `updateProduct` writes the new default price, then
`updateAllCustomPricesForProduct` overwrites `custom_price` on the product's
assignment rows. -/
def propagateDefaultPriceChange (db : DB) (productId : Nat) (name unit : String)
    (newPrice : ℚ) : DB :=
  Database.updateAllCustomPricesForProduct
    (Database.updateProduct db productId name unit newPrice) productId newPrice

end ManageGlobalProductsScreen

/-- C6: propagating a default-price change with `applyToCustomers = true`
keeps the assignment table's length, sets `custom_price = newPrice` on every
assignment row of the product, leaves every assignment row of any other
product exactly as it was (position by position), and writes the new default
price on the product row itself. -/
theorem C6_propagate_price_change (db : DB) (pid : Nat) (n u : String) (newPrice : ℚ) :
    (ManageGlobalProductsScreen.propagateDefaultPriceChange db pid n u
        newPrice).customer_products.length = db.customer_products.length ∧
    (∀ cp ∈ (ManageGlobalProductsScreen.propagateDefaultPriceChange db pid n u
        newPrice).customer_products, cp.product_id = pid → cp.custom_price = newPrice) ∧
    (∀ i, i < db.customer_products.length →
      (db.customer_products.getD i ⟨0, 0, 0, 0⟩).product_id ≠ pid →
      (ManageGlobalProductsScreen.propagateDefaultPriceChange db pid n u
          newPrice).customer_products.getD i ⟨0, 0, 0, 0⟩ =
        db.customer_products.getD i ⟨0, 0, 0, 0⟩) ∧
    (∀ pr ∈ (ManageGlobalProductsScreen.propagateDefaultPriceChange db pid n u
        newPrice).products, pr.id = pid → pr.default_price = newPrice) := by
  have hcp : (ManageGlobalProductsScreen.propagateDefaultPriceChange db pid n u
      newPrice).customer_products =
      db.customer_products.map fun cp =>
        if cp.product_id == pid then { cp with custom_price := newPrice } else cp := rfl
  have hpr : (ManageGlobalProductsScreen.propagateDefaultPriceChange db pid n u
      newPrice).products =
      db.products.map fun pr =>
        if pr.id == pid then { pr with name := n, unit := u, default_price := newPrice }
        else pr := rfl
  refine ⟨by rw [hcp, List.length_map], ?_, ?_, ?_⟩
  · intro cp hcp'
    rw [hcp] at hcp'
    obtain ⟨x, _, rfl⟩ := List.mem_map.mp hcp'
    by_cases hx : x.product_id == pid
    · intro _
      simp [hx]
    · intro hcontra
      rw [if_neg hx] at hcontra ⊢
      exact absurd (beq_iff_eq.mpr hcontra) hx
  · intro i hi hne
    rw [hcp]
    rw [List.getD_eq_getElem?_getD, List.getD_eq_getElem?_getD, List.getElem?_map,
      List.getElem?_eq_getElem hi]
    have : ¬ (db.customer_products[i].product_id == pid) := by
      rw [List.getD_eq_getElem?_getD, List.getElem?_eq_getElem hi] at hne
      simpa using hne
    simp only [Option.map_some', Option.getD_some, if_neg this]
  · intro pr hpr'
    rw [hpr] at hpr'
    obtain ⟨x, _, rfl⟩ := List.mem_map.mp hpr'
    by_cases hx : x.id == pid
    · intro _
      simp [hx]
    · intro hcontra
      rw [if_neg hx] at hcontra ⊢
      exact absurd (beq_iff_eq.mpr hcontra) hx

/-- Database used to exercise `C6_propagate_price_change`: customer 7 is
assigned products 1 and 2. -/
def dbC6 : DB :=
  { customers := [⟨7, "Asha", "", "", true⟩]
    products := [⟨1, "Milk", "Liter", 60⟩, ⟨2, "Curd", "Kg", 80⟩]
    customer_products := [⟨7, 1, 60, 1⟩, ⟨7, 2, 80, 1⟩]
    daily_sales := []
    payments := []
    nextSaleId := 0
    nextPaymentId := 0 }

/-- Witness for `C6_propagate_price_change`: propagating 75 for product 1 on
`dbC6` updates product 1's assignment and leaves product 2's assignment (index
1) unchanged. -/
theorem C6_propagate_price_change_witness :
    ((⟨7, 1, 75, 1⟩ : CustomerProduct) ∈
        (ManageGlobalProductsScreen.propagateDefaultPriceChange dbC6 1 "Milk" "Liter"
          75).customer_products →
      (⟨7, 1, 75, 1⟩ : CustomerProduct).product_id = 1 →
      (⟨7, 1, 75, 1⟩ : CustomerProduct).custom_price = 75) ∧
    (ManageGlobalProductsScreen.propagateDefaultPriceChange dbC6 1 "Milk" "Liter"
        75).customer_products.getD 1 ⟨0, 0, 0, 0⟩ =
      dbC6.customer_products.getD 1 ⟨0, 0, 0, 0⟩ :=
  ⟨(C6_propagate_price_change dbC6 1 "Milk" "Liter" 75).2.1 ⟨7, 1, 75, 1⟩,
   (C6_propagate_price_change dbC6 1 "Milk" "Liter" 75).2.2.1 1 (by decide) (by decide)⟩

/-- C7: sales store their own price snapshot: `recordSale` writes the
quantity, the unit price and `total_amount = quantity * pricePerUnit` into the
new `daily_sales` row, and a later `updateProduct` — a default-price change
not applied to customers — touches only the `products` table, leaving every
recorded sale row (quantity, price_per_unit, total_amount) unchanged. -/
theorem C7_price_snapshot (db : DB) (c p : Nat) (q r : ℚ) (d : Nat)
    (pid : Nat) (n u : String) (newPrice : ℚ) :
    (Database.updateProduct (Database.recordSale db c p q r d).2 pid n u
        newPrice).daily_sales = (Database.recordSale db c p q r d).2.daily_sales ∧
    (Database.recordSale db c p q r d).2.daily_sales =
      db.daily_sales ++ [⟨db.nextSaleId, c, p, q, r, q * r, d⟩] :=
  ⟨rfl, rfl⟩

namespace CustomerDetailScreen

/-- The figures of a customer statement. -/
structure BillSummary where
  openingBalance : ℚ
  totalSalesAmount : ℚ
  totalPaymentsAmount : ℚ
  netPayable : ℚ
deriving DecidableEq

/-- Embeds `src/src/screens/CustomerDetailScreen.js` lines 147–158, `generateBillPDF`
(the figures of the generated statement): `previousDues` is
`getTotalDuesForCustomerUpToDate(customerId, formattedStartDate)` — the
**start date itself** as cutoff, with the current revision's inclusive `≤`
query — and `netPayable = previousDues + totalSalesAmount −
totalPaymentsAmount` over the period's sale/payment line sums. -/
def generateBillPDF (db : DB) (customerId : Nat) (startDate endDate : Nat) :
    BillSummary :=
  let periodSales := Database.getSalesForCustomer db customerId startDate endDate
  let periodPayments := Database.getPaymentsForCustomer db customerId startDate endDate
  let previousDues := Database.getTotalDuesForCustomerUpToDate db customerId startDate
  let totalSalesAmount := (periodSales.map Sale.total_amount).sum
  let totalPaymentsAmount := (periodPayments.map Payment.amount_paid).sum
  ⟨previousDues, totalSalesAmount, totalPaymentsAmount,
   previousDues + totalSalesAmount - totalPaymentsAmount⟩

/-- Embeds `CustomerDetailScreen.js` lines 130–145, `handleRecordPayment`: the only
check before calling `recordPayment` is that the amount field is non-empty
(`!paymentAmount`); the parsed amount is passed through unvalidated. -/
def handleRecordPayment (db : DB) (customerId : Nat) (paymentAmount : Option ℚ)
    (paymentDate : Nat) (paymentNotes : String) : Except String DB :=
  match paymentAmount with
  | none => Except.error "Please enter amount"
  | some amt =>
      Except.ok (Database.recordPayment db customerId amt paymentDate paymentNotes)

end CustomerDetailScreen

namespace ReportsScreenV1

/-- Embeds `src/unnamed/part_004` lines 88–100, `generateBillPDF` (earlier reports
screen, paired with the `part_001` database revision): `openingBalance` is the
strict-`<` dues query at the start date, `closingBalance = openingBalance +
salesTotal − paymentsTotal` (`getSalesForCustomer` / `getPaymentsForCustomer`
of `part_001` filter identically to the current revision and are shared). -/
def generateBillPDF (db : DB) (customerId : Nat) (startDate endDate : Nat) :
    CustomerDetailScreen.BillSummary :=
  let openingBalance := DatabaseV1.getTotalDuesForCustomerUpToDate db customerId startDate
  let salesForBill := Database.getSalesForCustomer db customerId startDate endDate
  let paymentsForBill := Database.getPaymentsForCustomer db customerId startDate endDate
  let salesTotal := (salesForBill.map Sale.total_amount).sum
  let paymentsTotal := (paymentsForBill.map Payment.amount_paid).sum
  ⟨openingBalance, salesTotal, paymentsTotal, openingBalance + salesTotal - paymentsTotal⟩

end ReportsScreenV1

/-- Splitting a `≤ endDate` sum at a start date: events strictly before the
start plus events inside `[startDate, endDate]` (when `startDate ≤ endDate`). -/
theorem sum_filter_lt_add_between {α : Type} (l : List α) (f : α → ℚ) (p : α → Bool)
    (dt : α → Nat) (sd ed : Nat) (h : sd ≤ ed) :
    ((l.filter fun x => p x && decide (dt x < sd)).map f).sum +
    ((l.filter fun x => p x && decide (sd ≤ dt x) && decide (dt x ≤ ed)).map f).sum =
    ((l.filter fun x => p x && decide (dt x ≤ ed)).map f).sum := by
  induction l with
  | nil => simp
  | cons a t ih =>
    by_cases hp : p a = true
    · by_cases h1 : dt a < sd
      · have h2 : dt a ≤ ed := le_of_lt (lt_of_lt_of_le h1 h)
        have h3 : ¬ sd ≤ dt a := not_le.mpr h1
        simp [List.filter_cons, hp, h1, h2, h3, ← ih]
        ring
      · by_cases h2 : dt a ≤ ed
        · have h3 : sd ≤ dt a := not_lt.mp h1
          simp [List.filter_cons, hp, h1, h2, h3, ← ih]
          ring
        · simp [List.filter_cons, hp, h1, h2, ih]

    · simp [List.filter_cons, hp, ih]

/-- The earlier pairing — `part_004`'s `generateBillPDF` over the `part_001`
strict-`<` dues query — satisfies the statement invariant of the spec: for
`startDate ≤ endDate` the closing balance equals the (inclusive) total due as
of the end date, and the opening balance counts exactly the events strictly
before the start date. -/
theorem generateBillPDF_v1_closing (db : DB) (c : Nat) (sd ed : Nat) (h : sd ≤ ed) :
    (ReportsScreenV1.generateBillPDF db c sd ed).netPayable =
      Database.getTotalDuesForCustomerUpToDate db c ed := by
  simp only [ReportsScreenV1.generateBillPDF, Database.getTotalDuesForCustomerUpToDate,
    DatabaseV1.getTotalDuesForCustomerUpToDate, Database.getSalesForCustomer,
    Database.getPaymentsForCustomer, orZero_sqlSum]
  rw [← sum_filter_lt_add_between db.daily_sales Sale.total_amount
        (fun s => s.customer_id == c) Sale.sale_date sd ed h,
      ← sum_filter_lt_add_between db.payments Payment.amount_paid
        (fun p => p.customer_id == c) Payment.payment_date sd ed h]
  ring

/-- Witness for `generateBillPDF_v1_closing`: Scenario B over October 2023. -/
theorem generateBillPDF_v1_closing_witness :
    (ReportsScreenV1.generateBillPDF scenarioB 1 20231001 20231031).netPayable =
      Database.getTotalDuesForCustomerUpToDate scenarioB 1 20231031 :=
  generateBillPDF_v1_closing scenarioB 1 20231001 20231031 (by norm_num)

/-- C1 fails on the current revision: evaluating
`CustomerDetailScreen.generateBillPDF` on Scenario B over
[2023-10-01, 2023-10-31] yields opening balance 120 — the sale dated
2023-10-01 is counted in the opening balance (cutoff = start date with the
inclusive `≤` query) *and* again in period sales — and net payable 190,
whereas `totalDueAsOf(2023-09-30) = 0` and `totalDueAsOf(2023-10-31) = 70`:
neither the opening-balance equation nor the closing-balance equation of the
claim holds at this input. -/
theorem C1_statement_boundary_bug :
    CustomerDetailScreen.generateBillPDF scenarioB 1 20231001 20231031 =
      ⟨120, 120, 50, 190⟩ ∧
    Database.getTotalDuesForCustomerUpToDate scenarioB 1 20230930 = 0 ∧
    Database.getTotalDuesForCustomerUpToDate scenarioB 1 20231031 = 70 ∧
    (CustomerDetailScreen.generateBillPDF scenarioB 1 20231001 20231031).openingBalance ≠
      Database.getTotalDuesForCustomerUpToDate scenarioB 1 20230930 ∧
    (CustomerDetailScreen.generateBillPDF scenarioB 1 20231001 20231031).netPayable ≠
      Database.getTotalDuesForCustomerUpToDate scenarioB 1 20231031 := by
  norm_num [CustomerDetailScreen.generateBillPDF, Database.getSalesForCustomer,
    Database.getPaymentsForCustomer, Database.getTotalDuesForCustomerUpToDate,
    scenarioB, sqlSum, orZero, List.filter]

/-- Spec-side formula for a customer's lifetime due: lifetime sales minus
lifetime payments, empty sums being 0. -/
def specLifetimeDue (db : DB) (customerId : Nat) : ℚ :=
  ((db.daily_sales.filter fun s => s.customer_id == customerId).map
    Sale.total_amount).sum -
  ((db.payments.filter fun p => p.customer_id == customerId).map
    Payment.amount_paid).sum

/-- C8 (amended): both current-revision all-customers dues computations return
one entry per **active** customer — with `total_due` = lifetime sales −
lifetime payments — and no entry for a deactivated customer; the `part_001`
revision of `getCustomerDues`, however, returns an entry for **every**
customer, deactivated ones included (entry multisets stated up to the dropped
`ORDER BY`). -/
theorem C8_dues_active_customers (db : DB) (sd ed : Nat) :
    Database.getCustomerDues db =
      (db.customers.filter fun c => c.isActive).map
        (fun c => ⟨c.id, c.name, specLifetimeDue db c.id⟩) ∧
    (Database.getComprehensiveCustomerDues db sd ed).map (fun e => (e.id, e.total_due)) =
      (db.customers.filter fun c => c.isActive).map
        (fun c => (c.id, specLifetimeDue db c.id)) ∧
    DatabaseV1.getCustomerDues db =
      db.customers.map (fun c => ⟨c.id, c.name, specLifetimeDue db c.id⟩) := by
  refine ⟨?_, ?_, ?_⟩
  · simp [Database.getCustomerDues, specLifetimeDue]
  · simp [Database.getComprehensiveCustomerDues, specLifetimeDue]
  · simp [DatabaseV1.getCustomerDues, specLifetimeDue]

/-- Database with a single, deactivated customer who still owes 100. -/
def dbC8 : DB :=
  { customers := [⟨1, "Gone", "", "", false⟩]
    products := [⟨1, "Milk", "Liter", 50⟩]
    customer_products := []
    daily_sales := [⟨0, 1, 1, 2, 50, 100, 20231001⟩]
    payments := []
    nextSaleId := 1
    nextPaymentId := 0 }

/-- C8 counterexample: on `dbC8` the current revision returns no entry for the
deactivated customer, but the `part_001` revision of `getCustomerDues` — one
of the claim's all-customers dues computations — returns an entry for them
(with their lifetime due 100), so the claim that every such computation
returns no entry for any deactivated customer is false. -/
theorem C8_dues_active_customers_cex :
    Database.getCustomerDues dbC8 = [] ∧
    DatabaseV1.getCustomerDues dbC8 = [⟨1, "Gone", 100⟩] := by
  constructor
  · simp [Database.getCustomerDues, dbC8]
  · norm_num [DatabaseV1.getCustomerDues, dbC8, sqlSum, orZero, List.filter]

namespace ReportsScreen

/-- Embeds `src/src/screens/ReportsScreen.js` lines 45–66, `loadReports`: the
customers listed in the period report are `getComprehensiveCustomerDues`
filtered by `Math.abs(c.total_due) > 0.5` (the floating-point-dust epsilon). -/
def activeCustomers (db : DB) (startDate endDate : Nat) :
    List Database.CompDueEntry :=
  (Database.getComprehensiveCustomerDues db startDate endDate).filter fun c =>
    decide (|c.total_due| > 1/2)

end ReportsScreen

namespace DashboardScreen

/-- Embeds `src/src/screens/DashboardScreen.js` line 105 (`loadReports`): the
dashboard dues list is `allDues.filter(d => d.total_due > 0)` — a strict
sign test with **no** epsilon. -/
def customerDues (db : DB) : List Database.DueEntry :=
  (Database.getCustomerDues db).filter fun e => decide (0 < e.total_due)

end DashboardScreen

/-- C9 (amended): only the reports screen applies the 0.5 epsilon; the
dashboard lists every customer whose due is strictly positive — however small
— and the `part_001` period report excludes only dues that are exactly 0. -/
theorem C9_dues_report_filters (db : DB) (sd ed : Nat) :
    (∀ e ∈ ReportsScreen.activeCustomers db sd ed, |e.total_due| > 1/2) ∧
    (∀ e ∈ DashboardScreen.customerDues db, 0 < e.total_due) ∧
    (∀ e ∈ DatabaseV1.getCustomerDuesForPeriod db sd ed, e.period_due ≠ 0) := by
  refine ⟨?_, ?_, ?_⟩
  · intro e he
    have := (List.mem_filter.mp he).2
    simpa using this
  · intro e he
    have := (List.mem_filter.mp he).2
    simpa using this
  · intro e he
    have := (List.mem_filter.mp he).2
    simpa using this

/-- Database with an active customer owing exactly 0.3 — below the 0.5
epsilon. -/
def dbC9 : DB :=
  { customers := [⟨1, "Asha", "", "9999999999", true⟩]
    products := [⟨1, "Milk", "Liter", 60⟩]
    customer_products := []
    daily_sales := [⟨0, 1, 1, 1, 3/10, 3/10, 20231002⟩]
    payments := []
    nextSaleId := 1
    nextPaymentId := 0 }

/-- Witness for `C9_dues_report_filters`: on `dbC8`-style data with a large
due, the reports-screen list is non-empty and the theorem yields the epsilon
bound for its entry. -/
theorem C9_dues_report_filters_witness :
    |(⟨1, "Asha", "9999999999", 3/10, 3/10, 3/10, 0⟩ :
        Database.CompDueEntry).total_due| > (1 : ℚ)/2 ∨
    (0 : ℚ) < (⟨1, "Asha", 3/10⟩ : Database.DueEntry).total_due :=
  Or.inr ((C9_dues_report_filters dbC9 20231001 20231031).2.1
    ⟨1, "Asha", 3/10⟩
    (by norm_num [DashboardScreen.customerDues, Database.getCustomerDues, dbC9,
      sqlSum, orZero, List.filter]))

/-- C9 counterexample: the dashboard's dues list — a report view listing
"customers with dues" — includes the customer of `dbC9` whose absolute due,
0.3, is below 0.5: no epsilon is applied there, so the claim fails. -/
theorem C9_dues_report_filters_cex :
    (DashboardScreen.customerDues dbC9).map (fun e => e.total_due) = [3/10] ∧
    |(3/10 : ℚ)| < 1/2 := by
  constructor
  · norm_num [DashboardScreen.customerDues, Database.getCustomerDues, dbC9,
      sqlSum, orZero, List.filter]
  · norm_num [abs_of_pos]

/-- C10: `recordPayment` performs no validation — for every amount, zero and
negative included, it appends a payment row, after which the running balance
as of any date not earlier than the payment date drops by exactly that
amount; and the payment-entry flow `handleRecordPayment` rejects only an
empty amount field, passing any parsed amount through. -/
theorem C10_recordPayment_unvalidated (db : DB) (c : Nat) (amt : ℚ) (d : Nat)
    (notes : String) (asOf : Nat) :
    (Database.recordPayment db c amt d notes).payments =
      db.payments ++ [⟨db.nextPaymentId, c, amt, d, notes⟩] ∧
    (d ≤ asOf →
      Database.getTotalDuesForCustomerUpToDate (Database.recordPayment db c amt d notes)
          c asOf =
        Database.getTotalDuesForCustomerUpToDate db c asOf - amt) ∧
    CustomerDetailScreen.handleRecordPayment db c (some amt) d notes =
      Except.ok (Database.recordPayment db c amt d notes) ∧
    CustomerDetailScreen.handleRecordPayment db c none d notes =
      Except.error "Please enter amount" := by
  refine ⟨rfl, ?_, rfl, rfl⟩
  intro h
  simp only [Database.getTotalDuesForCustomerUpToDate, Database.recordPayment,
    orZero_sqlSum, List.filter_append]
  rw [List.filter_cons]
  simp [h]
  ring

/-- Witness for `C10_recordPayment_unvalidated`: recording a **negative**
payment of −5 on day 3 lowers no validation flag and raises the due as of day
10 by 5. -/
theorem C10_recordPayment_unvalidated_witness :
    Database.getTotalDuesForCustomerUpToDate
        (Database.recordPayment DB.empty 1 (-5) 3 "") 1 10 =
      Database.getTotalDuesForCustomerUpToDate DB.empty 1 10 - (-5) :=
  (C10_recordPayment_unvalidated DB.empty 1 (-5) 3 "" 10).2.1 (by norm_num)

end Milkwala
